import Mathlib

/-!
Shallow embedding of the two Flask applications of the whatsapp-api
repository: `app.py` (bulk `/sheet-update` webhook that fetches all rows
of a Google Sheet and sends one WhatsApp message per row) and `app_01.py`
(single-record `/submit-data` endpoint that appends the posted record to a
sheet and returns the built WhatsApp payload).

Records are string-keyed mappings; they are modelled as association lists
in which the first binding of a key wins, as in a Python dict. External
effects (the Google Sheets calls, the outbound WhatsApp POST, and the
transient credential file) are modelled by explicit event traces and by
outcome oracles that say which fallible external step, if any, raises.
-/

/-- A sheet row or request record: a string-keyed, string-valued mapping. -/
abbrev Record := List (String × String)

/-- Python `record.get(key, '')` for a string-valued mapping: the value at
the key, or the empty string when the key is absent. -/
def rget (r : Record) (k : String) : String :=
  match r.find? (fun p => p.1 == k) with
  | some p => p.2
  | none => ""

/-- Python `str.replace(' ', '')`: removes every space character U+0020.
This is the phone normalization step of the field mapper. -/
def stripSpaces (s : String) : String :=
  String.mk (s.data.filter (fun c => !(c == ' ')))

/-- The `language` object of the template payload. -/
structure LanguageSpec where
  code : String
  policy : String
deriving DecidableEq

/-- The `header_1` document component of the template payload. -/
structure HeaderComponent where
  filename : String
  type : String
  value : String
deriving DecidableEq

/-- The `body_1` text component of the template payload. -/
structure BodyComponent where
  type : String
  value : String
deriving DecidableEq

/-- The `components` object holding the document and text components. -/
structure Components where
  header_1 : HeaderComponent
  body_1 : BodyComponent
deriving DecidableEq

/-- One entry of the `to_and_components` array. -/
structure ToAndComponent where
  «to» : List String
  components : Components
deriving DecidableEq

/-- The `template` object. The field `nspace` mirrors the JSON key
`namespace`, which is a reserved word in Lean. -/
structure TemplateSpec where
  name : String
  language : LanguageSpec
  nspace : String
  to_and_components : List ToAndComponent
deriving DecidableEq

/-- The inner `payload` object. -/
structure InnerPayload where
  messaging_product : String
  type : String
  template : TemplateSpec
deriving DecidableEq

/-- The complete outbound WhatsApp payload built by both applications. -/
structure WhatsAppPayload where
  integrated_number : String
  content_type : String
  payload : InnerPayload
deriving DecidableEq

/-- The function `build_whatsapp_payload` of `app.py` (lines 77-127): maps
the four fixed record keys (missing keys default to the empty string),
strips spaces from the mobile number, rejects with `none` when the
normalized mobile number or the application id is empty, and otherwise
builds the fixed nested template payload. -/
def build_whatsapp_payload (record : Record) : Option WhatsAppPayload :=
  let mobile_no := stripSpaces (rget record "Mobile No")
  let application_id := rget record "Application ID"
  let applicant_name := rget record "Applicant Name"
  let application_type := rget record "Application Type (Certificate Name)"
  if mobile_no = "" ∨ application_id = "" then
    none
  else
    some {
      integrated_number := "919270334724"
      content_type := "template"
      payload := {
        messaging_product := "whatsapp"
        type := "template"
        template := {
          name := "kurlaaa"
          language := { code := "en", policy := "deterministic" }
          nspace := "bef520bd_6b38_4231_8cd9_2f253f10a1dd"
          to_and_components := [{
            «to» := ["91" ++ mobile_no]
            components := {
              header_1 := {
                filename := application_id
                type := "document"
                value := "https://mahainformatics.com/files/andheri/"
                  ++ application_id ++ ".pdf"
              }
              body_1 := {
                type := "text"
                value := "Namaste🙏 " ++ applicant_name ++ " check your "
                  ++ application_type ++ " certificate"
              }
            }
          }]
        }
      }
    }

/-- The function `build_whatsapp_payload` of `app_01.py` (lines 74-125).
It is textually the same construction as in `app.py` except for the
greeting in the `body_1` value: where `app.py` has the single character
U+1F64F (the folded-hands emoji), `app_01.py` has the four characters
U+F8FF U+00FC U+00F4 U+00E8 (the Mac-Roman misdecoding of the UTF-8 bytes
of that emoji). -/
def build_whatsapp_payload_01 (record : Record) : Option WhatsAppPayload :=
  let mobile_no := stripSpaces (rget record "Mobile No")
  let application_id := rget record "Application ID"
  let applicant_name := rget record "Applicant Name"
  let application_type := rget record "Application Type (Certificate Name)"
  if mobile_no = "" ∨ application_id = "" then
    none
  else
    some {
      integrated_number := "919270334724"
      content_type := "template"
      payload := {
        messaging_product := "whatsapp"
        type := "template"
        template := {
          name := "kurlaaa"
          language := { code := "en", policy := "deterministic" }
          nspace := "bef520bd_6b38_4231_8cd9_2f253f10a1dd"
          to_and_components := [{
            «to» := ["91" ++ mobile_no]
            components := {
              header_1 := {
                filename := application_id
                type := "document"
                value := "https://mahainformatics.com/files/andheri/"
                  ++ application_id ++ ".pdf"
              }
              body_1 := {
                type := "text"
                value := "Namaste\uF8FF\u00FC\u00F4\u00E8 " ++ applicant_name
                  ++ " check your " ++ application_type ++ " certificate"
              }
            }
          }]
        }
      }
    }

/-- Outcome of one outbound WhatsApp POST as seen by the caller of
`requests.post`: either a response carrying an integer status code, or a
raised network-level exception (`requests.exceptions.RequestException`). -/
inductive SendResult
  | status (code : Int)
  | netError
deriving DecidableEq

/-- Classification applied by `handle_webhook` (app.py lines 173-182):
`response.status_code in [200, 201, 202]` counts as success; every other
status code, and a raised network exception, counts as failure. -/
def is_success : SendResult → Bool
  | SendResult.status c => c == 200 || c == 201 || c == 202
  | SendResult.netError => false

/-- An outbound network call made by one of the handlers. -/
inductive NetEvent
  | sheetFetch
  | sheetAppend (r : Record)
  | whatsappSend (p : WhatsAppPayload)
deriving DecidableEq

/-- A file-system operation on the transient credential file. -/
inductive FileOp
  | create (name : String)
  | remove (name : String)
deriving DecidableEq

/-- Whether a file with the given name exists after the listed operations
have run, starting from a state in which it does not exist. -/
def fileExistsAfter (name : String) (ops : List FileOp) : Bool :=
  ops.foldl (fun st op =>
    match op with
    | FileOp.create n => if n == name then true else st
    | FileOp.remove n => if n == name then false else st) false

/-- Which fallible external step of `get_sheet_data` (app.py lines 27-73),
if any, raises. `createFails`: `tempfile.NamedTemporaryFile` itself
raises, so no file is created and `tmp_file_name` stays `None`.
`writeFails`: the `tmp_file.write` call inside the `with` block raises
after the file was created on disk but before `tmp_file_name =
tmp_file.name` ran; the exception is caught by `except Exception`.
`noValidUrl`: spreadsheet resolution raises
`gspread.exceptions.NoValidUrlKeyOrTitle`. `otherErr`: any other
exception during authentication or fetching. `ok`: every step succeeds
and the sheet yields the given records. -/
inductive FetchOutcome
  | createFails
  | writeFails
  | noValidUrl
  | otherErr
  | ok (records : List Record)
deriving DecidableEq

/-- Result of running `get_sheet_data`: the credential-file operations it
performed, the outbound network calls it made, and its return value. -/
structure FetchResult where
  fileOps : List FileOp
  netEvents : List NetEvent
  records : Option (List Record)
deriving DecidableEq

/-- The function `get_sheet_data` of `app.py` (lines 27-73). Returns
`None` when `GOOGLE_CREDENTIALS` is unset or empty (Python truthiness);
otherwise it writes the credentials to a temporary file, authenticates
and fetches all records over the network, and in a `finally` clause
removes the temporary file provided `tmp_file_name` was recorded and the
file exists. In the `writeFails` case the file was created but
`tmp_file_name` is still `None`, so the `finally` clause skips removal. -/
def get_sheet_data (creds : Option String) (tmpName : String)
    (outcome : FetchOutcome) : FetchResult :=
  if (creds.getD "") = "" then
    { fileOps := [], netEvents := [], records := none }
  else
    match outcome with
    | FetchOutcome.createFails =>
        { fileOps := [], netEvents := [], records := none }
    | FetchOutcome.writeFails =>
        { fileOps := [FileOp.create tmpName], netEvents := [], records := none }
    | FetchOutcome.noValidUrl =>
        { fileOps := [FileOp.create tmpName, FileOp.remove tmpName],
          netEvents := [NetEvent.sheetFetch], records := none }
    | FetchOutcome.otherErr =>
        { fileOps := [FileOp.create tmpName, FileOp.remove tmpName],
          netEvents := [NetEvent.sheetFetch], records := none }
    | FetchOutcome.ok rs =>
        { fileOps := [FileOp.create tmpName, FileOp.remove tmpName],
          netEvents := [NetEvent.sheetFetch], records := some rs }

/-- Which fallible external step of `write_sheet_data` (app_01.py lines
18-70), if any, raises; `createFails` and `writeFails` are as in
`FetchOutcome`, `remoteFails` covers an exception between authentication
and reading the header row (before `append_row` is reached), and
`appendFails` an exception raised by the `sheet.append_row` call itself. -/
inductive WriteOutcome
  | createFails
  | writeFails
  | remoteFails
  | appendFails
  | ok
deriving DecidableEq

/-- Result of running `write_sheet_data`: file operations, network calls,
and the returned boolean. -/
structure WriteResult where
  fileOps : List FileOp
  netEvents : List NetEvent
  ok : Bool
deriving DecidableEq

/-- The function `write_sheet_data` of `app_01.py` (lines 18-70): returns
`False` when `GOOGLE_CREDENTIALS` is unset or empty, otherwise attempts
the append and returns whether it succeeded; every exception is caught
and mapped to `False`, and the `finally` clause removes the temporary
credential file provided its name was recorded. -/
def write_sheet_data (creds : Option String) (tmpName : String)
    (outcome : WriteOutcome) (new_record : Record) : WriteResult :=
  if (creds.getD "") = "" then
    { fileOps := [], netEvents := [], ok := false }
  else
    match outcome with
    | WriteOutcome.createFails =>
        { fileOps := [], netEvents := [], ok := false }
    | WriteOutcome.writeFails =>
        { fileOps := [FileOp.create tmpName], netEvents := [], ok := false }
    | WriteOutcome.remoteFails =>
        { fileOps := [FileOp.create tmpName, FileOp.remove tmpName],
          netEvents := [], ok := false }
    | WriteOutcome.appendFails =>
        { fileOps := [FileOp.create tmpName, FileOp.remove tmpName],
          netEvents := [NetEvent.sheetAppend new_record], ok := false }
    | WriteOutcome.ok =>
        { fileOps := [FileOp.create tmpName, FileOp.remove tmpName],
          netEvents := [NetEvent.sheetAppend new_record], ok := true }

/-- The per-record loop of `handle_webhook` (app.py lines 153-182),
processing records in order: a record whose payload is `None` only
increments the error count, with no network call; otherwise one POST is
issued and classified by `is_success`. The oracle `send` gives the
outcome of the POST for the record at each position `i`. Returns the
outbound calls made and the pair (success_count, error_count). -/
def sendLoop (send : Nat → SendResult) :
    List Record → Nat → List NetEvent × Nat × Nat
  | [], _ => ([], 0, 0)
  | r :: rest, i =>
    let tail := sendLoop send rest (i + 1)
    match build_whatsapp_payload r with
    | none => (tail.1, tail.2.1, tail.2.2 + 1)
    | some p =>
        if is_success (send i) then
          (NetEvent.whatsappSend p :: tail.1, tail.2.1 + 1, tail.2.2)
        else
          (NetEvent.whatsappSend p :: tail.1, tail.2.1, tail.2.2 + 1)

/-- JSON body returned by `handle_webhook`: either an error object
`{"status": ..., "message": ...}` or the aggregate report object. -/
inductive WebhookBody
  | err (status message : String)
  | report (status message : String)
      (records_processed records_sent_successfully records_failed : Nat)
deriving DecidableEq

/-- Result of one run of `handle_webhook`: file operations, network
calls, HTTP status, and JSON body. -/
structure WebhookResult where
  fileOps : List FileOp
  netEvents : List NetEvent
  httpStatus : Nat
  body : WebhookBody
deriving DecidableEq

/-- The handler `handle_webhook` of `app.py` (lines 131-191) for
`POST /sheet-update`. It checks the client API configuration first
(Python truthiness: unset or empty is falsy), then fetches the sheet,
treats a `None` or empty record list as a fetch failure (`if not
data_records`), and otherwise runs the send loop and reports aggregate
counts with HTTP 200. -/
def handle_webhook (endpoint apiKey creds : Option String) (tmpName : String)
    (fetchOutcome : FetchOutcome) (send : Nat → SendResult) : WebhookResult :=
  if (endpoint.getD "") = "" ∨ (apiKey.getD "") = "" then
    { fileOps := [], netEvents := [], httpStatus := 500,
      body := WebhookBody.err "error" "Server configuration error." }
  else
    let f := get_sheet_data creds tmpName fetchOutcome
    match f.records with
    | none =>
        { fileOps := f.fileOps, netEvents := f.netEvents, httpStatus := 500,
          body := WebhookBody.err "error"
            "Failed to retrieve data from Google Sheets." }
    | some rs =>
        if rs.isEmpty then
          { fileOps := f.fileOps, netEvents := f.netEvents, httpStatus := 500,
            body := WebhookBody.err "error"
              "Failed to retrieve data from Google Sheets." }
        else
          let run := sendLoop send rs 0
          { fileOps := f.fileOps, netEvents := f.netEvents ++ run.1,
            httpStatus := 200,
            body := WebhookBody.report "processing_complete"
              "Sheet data fetched and processing initiated."
              rs.length run.2.1 run.2.2 }

/-- JSON body returned by `submit_data`: an error object, or the built
WhatsApp payload with the added `sheet_write_status` field. -/
inductive SubmitBody
  | err (status message : String)
  | payloadWith (p : WhatsAppPayload) (sheet_write_status : String)
deriving DecidableEq

/-- Result of one run of `submit_data`: file operations, network calls,
HTTP status, and JSON body. -/
structure SubmitResult where
  fileOps : List FileOp
  netEvents : List NetEvent
  httpStatus : Nat
  body : SubmitBody
deriving DecidableEq

/-- The handler `submit_data` of `app_01.py` (lines 129-162) for
`POST /submit-data`. `request.get_json(silent=True)` yields `None` for a
malformed body, and Python truthiness also rejects an empty record with
400. The handler writes the record to the sheet BEFORE building and
validating the WhatsApp payload, returns 400 when the payload cannot be
built, and otherwise returns the payload with `sheet_write_status` and
HTTP 200. -/
def submit_data (sheet_id creds : Option String) (tmpName : String)
    (outcome : WriteOutcome) (incoming : Option Record) : SubmitResult :=
  match incoming with
  | none =>
      { fileOps := [], netEvents := [], httpStatus := 400,
        body := SubmitBody.err "error"
          "Invalid JSON received or missing body." }
  | some incoming_data =>
    if incoming_data.isEmpty then
      { fileOps := [], netEvents := [], httpStatus := 400,
        body := SubmitBody.err "error"
          "Invalid JSON received or missing body." }
    else if (sheet_id.getD "") = "" then
      { fileOps := [], netEvents := [], httpStatus := 500,
        body := SubmitBody.err "error"
          "Server configuration missing SHEET_ID." }
    else
      let w := write_sheet_data creds tmpName outcome incoming_data
      match build_whatsapp_payload_01 incoming_data with
      | none =>
          { fileOps := w.fileOps, netEvents := w.netEvents, httpStatus := 400,
            body := SubmitBody.err "error"
              "Failed to construct WhatsApp payload (missing mobile/app ID)." }
      | some p =>
          { fileOps := w.fileOps, netEvents := w.netEvents, httpStatus := 200,
            body := SubmitBody.payloadWith p
              (if w.ok then "success" else "failure") }

/-- The payload with every `body_1` text blanked, used to compare the two
builders on everything except the greeting sentence. -/
def eraseBody (p : WhatsAppPayload) : WhatsAppPayload :=
  { p with payload := { p.payload with template := { p.payload.template with
      to_and_components := p.payload.template.to_and_components.map
        (fun tc => { tc with components := { tc.components with
          body_1 := { tc.components.body_1 with value := "" } } }) } } }

/-- The `body_1` text values of a payload, one per `to_and_components`
entry. -/
def bodyTexts (p : WhatsAppPayload) : List String :=
  p.payload.template.to_and_components.map
    (fun tc => tc.components.body_1.value)

/-- Whether the first character list is an initial segment of the second. -/
def listStartsWith : List Char → List Char → Bool
  | [], _ => true
  | _ :: _, [] => false
  | a :: as, b :: bs => a == b && listStartsWith as bs

/-- Helper for `strOccurs`: whether `n` starts at some position of the
second list. -/
def occursAux (n : List Char) : List Char → Bool
  | [] => listStartsWith n []
  | c :: rest => listStartsWith n (c :: rest) || occursAux n rest

/-- Whether the needle occurs as a contiguous substring of the haystack. -/
def strOccurs (needle hay : String) : Bool :=
  occursAux needle.data hay.data

/-- The concrete record used by the spec examples. -/
def sampleRecord : Record :=
  [("Mobile No", "98765 43210"), ("Application ID", "A100"),
   ("Applicant Name", "Asha"), ("Application Type (Certificate Name)", "Birth")]

/-- A two-record list: one fully valid record and one record with no
mobile number and no application id. -/
def demoRecords : List Record :=
  [sampleRecord, [("Applicant Name", "NoPhone")]]

/-- A send oracle whose every POST gets back HTTP status 503. -/
def demoSend : Nat → SendResult := fun _ => SendResult.status 503

/-- C8: phone normalization is idempotent: stripping the space characters
of an already stripped string changes nothing. -/
theorem strip_spaces_idempotent (s : String) :
    stripSpaces (stripSpaces s) = stripSpaces s := by
  simp [stripSpaces, List.filter_filter]

/-- C4: the dispatch outcome classification of `handle_webhook` is a total
boolean: a response with status 200, 201 or 202 is classified success,
every other integer status and a raised network exception is classified
failure, and every outcome is one of the two. -/
theorem dispatch_outcome_classification :
    (∀ c : Int, is_success (SendResult.status c) = true ↔
      (c = 200 ∨ c = 201 ∨ c = 202))
    ∧ is_success SendResult.netError = false
    ∧ (∀ r : SendResult, is_success r = true ∨ is_success r = false) := by
  refine ⟨?_, rfl, ?_⟩
  · intro c
    simp [is_success, or_assoc]
  · intro r
    cases h : is_success r
    · exact Or.inr rfl
    · exact Or.inl rfl

/-- C1: the mapper of `app.py` produces a payload exactly when the mobile
number with spaces removed and the application id are both non-empty; a
record missing the `Mobile No` key or the `Application ID` key (whose
lookups default to the empty string) yields no payload. -/
theorem mapper_accepts_iff_phone_and_id (r : Record) :
    ((build_whatsapp_payload r).isSome = true ↔
      (stripSpaces (rget r "Mobile No") ≠ "" ∧ rget r "Application ID" ≠ ""))
    ∧ (r.find? (fun p => p.1 == "Mobile No") = none →
        build_whatsapp_payload r = none)
    ∧ (r.find? (fun p => p.1 == "Application ID") = none →
        build_whatsapp_payload r = none) := by
  refine ⟨?_, ?_, ?_⟩
  · by_cases h1 : stripSpaces (rget r "Mobile No") = "" <;>
      by_cases h2 : rget r "Application ID" = "" <;>
      simp [build_whatsapp_payload, h1, h2]
  · intro h
    have hv : rget r "Mobile No" = "" := by simp [rget, h]
    have hs : stripSpaces "" = "" := rfl
    simp [build_whatsapp_payload, hv, hs]
  · intro h
    have hv : rget r "Application ID" = "" := by simp [rget, h]
    simp [build_whatsapp_payload, hv]

/-- Witness for C1 at concrete records. -/
theorem mapper_accepts_iff_phone_and_id_witness :
    (build_whatsapp_payload sampleRecord).isSome = true ∧
    build_whatsapp_payload [("Applicant Name", "Asha")] = none :=
  ⟨(mapper_accepts_iff_phone_and_id sampleRecord).1.mpr (by decide),
   (mapper_accepts_iff_phone_and_id [("Applicant Name", "Asha")]).2.1
     (by decide)⟩

/-- In every run of the send loop the success and failure counters
partition the record list. -/
theorem sendLoop_counts (send : Nat → SendResult) (rs : List Record) (i : Nat) :
    (sendLoop send rs i).2.1 + (sendLoop send rs i).2.2 = rs.length := by
  induction rs generalizing i with
  | nil => simp [sendLoop]
  | cons r rest ih =>
    have h := ih (i + 1)
    rcases hsl : sendLoop send rest (i + 1) with ⟨evs, sc, ec⟩
    rw [hsl] at h
    simp only at h
    cases hb : build_whatsapp_payload r with
    | none =>
        simp only [sendLoop, hb, hsl]
        simp only [List.length_cons]
        omega
    | some p =>
        by_cases hs : is_success (send i) = true <;>
          simp [sendLoop, hb, hsl, hs] <;> omega

/-- The outbound calls of the send loop are exactly one POST per record
whose payload was fully built, in record order, independent of the send
outcomes. -/
theorem sendLoop_trace (send : Nat → SendResult) (rs : List Record) (i : Nat) :
    (sendLoop send rs i).1 =
      rs.filterMap
        (fun r => (build_whatsapp_payload r).map NetEvent.whatsappSend) := by
  induction rs generalizing i with
  | nil => simp [sendLoop]
  | cons r rest ih =>
    cases hb : build_whatsapp_payload r with
    | none => simp [sendLoop, hb, ih]
    | some p =>
        by_cases hs : is_success (send i) = true <;>
          simp [sendLoop, hb, hs, ih]

/-- Whenever `handle_webhook` answers with the aggregate report object,
the reported success and failure counts sum to the reported number of
processed records. -/
theorem handle_webhook_report_sum (endpoint apiKey creds : Option String)
    (tmpName : String) (fo : FetchOutcome) (send : Nat → SendResult)
    (st msg : String) (p s f : Nat)
    (h : (handle_webhook endpoint apiKey creds tmpName fo send).body =
      WebhookBody.report st msg p s f) : s + f = p := by
  by_cases hc : (endpoint.getD "") = "" ∨ (apiKey.getD "") = ""
  · simp [handle_webhook, hc] at h
  · simp only [handle_webhook, if_neg hc] at h
    cases hr : (get_sheet_data creds tmpName fo).records with
    | none => rw [hr] at h; simp at h
    | some rs =>
        rw [hr] at h
        by_cases he : rs.isEmpty
        · simp [he] at h
        · simp [he] at h
          obtain ⟨-, -, hp, hs, hf⟩ := h
          subst hp; subst hs; subst hf
          exact sendLoop_counts send rs 0

/-- C3: in every run of the bulk handler over a fetched record list, the
reported success count plus the reported failure count equals the
reported number of processed records, and the sequence of outbound POSTs
is one per fully-mapped record, unchanged under any reassignment of the
per-record send outcomes (so one record's failure never prevents the
dispatch of later records). -/
theorem bulk_counts_partition (endpoint apiKey creds : Option String)
    (tmpName : String) (fo : FetchOutcome) (send send' : Nat → SendResult)
    (rs : List Record) (i : Nat) :
    ((sendLoop send rs i).2.1 + (sendLoop send rs i).2.2 = rs.length)
    ∧ ((sendLoop send rs i).1 = (sendLoop send' rs i).1)
    ∧ (∀ st msg p s f,
        (handle_webhook endpoint apiKey creds tmpName fo send).body =
          WebhookBody.report st msg p s f → s + f = p) := by
  refine ⟨sendLoop_counts send rs i, ?_, ?_⟩
  · rw [sendLoop_trace, sendLoop_trace]
  · intro st msg p s f h
    exact handle_webhook_report_sum endpoint apiKey creds tmpName fo send
      st msg p s f h

/-- Witness for C3 on a concrete run: two records, one of which fails the
mapping, every POST answered with 503. -/
theorem bulk_counts_partition_witness :
    ((sendLoop demoSend demoRecords 0).2.1 +
      (sendLoop demoSend demoRecords 0).2.2 = demoRecords.length)
    ∧ ((sendLoop demoSend demoRecords 0).1 =
        (sendLoop (fun _ => SendResult.netError) demoRecords 0).1)
    ∧ (0 + 2 = 2) := by
  refine ⟨(bulk_counts_partition (some "E") (some "K") (some "C") "tmp"
      (FetchOutcome.ok demoRecords) demoSend
      (fun _ => SendResult.netError) demoRecords 0).1,
    (bulk_counts_partition (some "E") (some "K") (some "C") "tmp"
      (FetchOutcome.ok demoRecords) demoSend
      (fun _ => SendResult.netError) demoRecords 0).2.1,
    (bulk_counts_partition (some "E") (some "K") (some "C") "tmp"
      (FetchOutcome.ok demoRecords) demoSend
      (fun _ => SendResult.netError) demoRecords 0).2.2
      "processing_complete" "Sheet data fetched and processing initiated."
      2 0 2 (by decide)⟩

/-- C5: when the client API endpoint or key is unset or empty, the bulk
handler answers 500 having made no outbound network call and touched no
file; when the sheet fetch yields `None` or an empty list it answers 500;
otherwise it answers 200 with the aggregate report naming the status,
message, and the three counters, whatever the individual send outcomes
were. -/
theorem sheet_update_response_contract (endpoint apiKey creds : Option String)
    (tmpName : String) (fo : FetchOutcome) (send : Nat → SendResult) :
    (((endpoint.getD "") = "" ∨ (apiKey.getD "") = "") →
      handle_webhook endpoint apiKey creds tmpName fo send =
        { fileOps := [], netEvents := [], httpStatus := 500,
          body := WebhookBody.err "error" "Server configuration error." })
    ∧ (¬((endpoint.getD "") = "" ∨ (apiKey.getD "") = "") →
        ((get_sheet_data creds tmpName fo).records = none ∨
          (get_sheet_data creds tmpName fo).records = some []) →
        (handle_webhook endpoint apiKey creds tmpName fo send).httpStatus = 500
        ∧ (handle_webhook endpoint apiKey creds tmpName fo send).body =
          WebhookBody.err "error" "Failed to retrieve data from Google Sheets.")
    ∧ (∀ rs, ¬((endpoint.getD "") = "" ∨ (apiKey.getD "") = "") →
        (get_sheet_data creds tmpName fo).records = some rs → rs ≠ [] →
        (handle_webhook endpoint apiKey creds tmpName fo send).httpStatus = 200
        ∧ (handle_webhook endpoint apiKey creds tmpName fo send).body =
          WebhookBody.report "processing_complete"
            "Sheet data fetched and processing initiated."
            rs.length (sendLoop send rs 0).2.1 (sendLoop send rs 0).2.2) := by
  refine ⟨?_, ?_, ?_⟩
  · intro hc
    simp [handle_webhook, hc]
  · intro hc hr
    cases hr with
    | inl hn => simp [handle_webhook, if_neg hc, hn]
    | inr he => simp [handle_webhook, if_neg hc, he]
  · intro rs hc hr hne
    have he : rs.isEmpty = false := by
      cases rs with
      | nil => exact absurd rfl hne
      | cons a as => rfl
    simp [handle_webhook, if_neg hc, hr, he]

/-- Witness for C5: the three branches at concrete configurations. -/
theorem sheet_update_response_contract_witness :
    (handle_webhook none (some "K") (some "C") "tmp"
        (FetchOutcome.ok demoRecords) demoSend =
      { fileOps := [], netEvents := [], httpStatus := 500,
        body := WebhookBody.err "error" "Server configuration error." })
    ∧ ((handle_webhook (some "E") (some "K") (some "C") "tmp"
        FetchOutcome.otherErr demoSend).httpStatus = 500)
    ∧ ((handle_webhook (some "E") (some "K") (some "C") "tmp"
        (FetchOutcome.ok demoRecords) demoSend).httpStatus = 200) := by
  refine ⟨?_, ?_, ?_⟩
  · exact (sheet_update_response_contract none (some "K") (some "C") "tmp"
      (FetchOutcome.ok demoRecords) demoSend).1 (by simp)
  · exact ((sheet_update_response_contract (some "E") (some "K") (some "C")
      "tmp" FetchOutcome.otherErr demoSend).2.1 (by simp) (by decide)).1
  · exact ((sheet_update_response_contract (some "E") (some "K") (some "C")
      "tmp" (FetchOutcome.ok demoRecords) demoSend).2.2 demoRecords
      (by simp) (by decide) (by decide)).1

/-- C2 counterexample: a record with no mobile number and no application
id is rejected by the mapper, yet `submit_data` still performs the
spreadsheet append on its behalf before answering 400, because the write
happens before the payload is built and validated. -/
theorem submit_appends_rejected_record_cex :
    build_whatsapp_payload_01 [("Applicant Name", "Asha")] = none
    ∧ (submit_data (some "SHEET") (some "CREDS") "tmp" WriteOutcome.ok
        (some [("Applicant Name", "Asha")])).netEvents =
      [NetEvent.sheetAppend [("Applicant Name", "Asha")]]
    ∧ (submit_data (some "SHEET") (some "CREDS") "tmp" WriteOutcome.ok
        (some [("Applicant Name", "Asha")])).httpStatus = 400 := by
  decide

/-- C2 amended: in the bulk handler every outbound POST carries a fully
built payload and a rejected record triggers no call at all; the
`/submit-data` handler never dispatches to WhatsApp itself, but it
performs the spreadsheet append before the required-field validation, so
a record failing that validation still causes the append. -/
theorem record_rejection_network_calls (sheet_id creds : Option String)
    (tmpName : String) (wo : WriteOutcome) (send : Nat → SendResult)
    (rs : List Record) (i : Nat) (inc : Option Record) (r : Record) :
    ((sendLoop send rs i).1 =
      rs.filterMap
        (fun x => (build_whatsapp_payload x).map NetEvent.whatsappSend))
    ∧ (∀ p, NetEvent.whatsappSend p ∉
        (submit_data sheet_id creds tmpName wo inc).netEvents)
    ∧ ((sheet_id.getD "") ≠ "" → (creds.getD "") ≠ "" → r ≠ [] →
        build_whatsapp_payload_01 r = none →
        (submit_data sheet_id creds tmpName WriteOutcome.ok (some r)).netEvents
          = [NetEvent.sheetAppend r]
        ∧ (submit_data sheet_id creds tmpName WriteOutcome.ok
            (some r)).httpStatus = 400) := by
  refine ⟨sendLoop_trace send rs i, ?_, ?_⟩
  · intro p
    cases inc with
    | none => simp [submit_data]
    | some d =>
        by_cases hd : d.isEmpty
        · simp [submit_data, hd]
        · by_cases hs : (sheet_id.getD "") = ""
          · simp [submit_data, hd, hs]
          · by_cases hc : (creds.getD "") = ""
            · cases hb : build_whatsapp_payload_01 d <;>
                cases wo <;> simp [submit_data, write_sheet_data, hd, hs, hc, hb]
            · cases hb : build_whatsapp_payload_01 d <;>
                cases wo <;> simp [submit_data, write_sheet_data, hd, hs, hc, hb]
  · intro hs hc hr hb
    have hd : r.isEmpty = false := by
      cases r with
      | nil => exact absurd rfl hr
      | cons a as => rfl
    constructor <;> simp [submit_data, write_sheet_data, hd, hs, hc, hb]

/-- A payload value with all fields blank, used only to instantiate
universally quantified payload variables in witnesses. -/
def emptyPayload : WhatsAppPayload :=
  { integrated_number := ""
    content_type := ""
    payload := {
      messaging_product := ""
      type := ""
      template := {
        name := ""
        language := { code := "", policy := "" }
        nspace := ""
        to_and_components := [] } } }

/-- Witness for C2 at concrete inputs: the bulk trace over the two demo
records, and the rejected-record append of `/submit-data`. -/
theorem record_rejection_network_calls_witness :
    ((sendLoop demoSend demoRecords 0).1 =
      demoRecords.filterMap
        (fun x => (build_whatsapp_payload x).map NetEvent.whatsappSend))
    ∧ (NetEvent.whatsappSend emptyPayload ∉
        (submit_data (some "SHEET") (some "CREDS") "tmp" WriteOutcome.ok
          (some [("Applicant Name", "Asha")])).netEvents)
    ∧ ((submit_data (some "SHEET") (some "CREDS") "tmp" WriteOutcome.ok
        (some [("Applicant Name", "Asha")])).netEvents =
          [NetEvent.sheetAppend [("Applicant Name", "Asha")]]
      ∧ (submit_data (some "SHEET") (some "CREDS") "tmp" WriteOutcome.ok
          (some [("Applicant Name", "Asha")])).httpStatus = 400) := by
  refine ⟨?_, ?_, ?_⟩
  · exact (record_rejection_network_calls (some "SHEET") (some "CREDS") "tmp"
      WriteOutcome.ok demoSend demoRecords 0
      (some [("Applicant Name", "Asha")]) [("Applicant Name", "Asha")]).1
  · exact (record_rejection_network_calls (some "SHEET") (some "CREDS") "tmp"
      WriteOutcome.ok demoSend demoRecords 0
      (some [("Applicant Name", "Asha")]) [("Applicant Name", "Asha")]).2.1 _
  · exact (record_rejection_network_calls (some "SHEET") (some "CREDS") "tmp"
      WriteOutcome.ok demoSend demoRecords 0
      (some [("Applicant Name", "Asha")]) [("Applicant Name", "Asha")]).2.2
      (by decide) (by decide) (by decide) (by decide)

/-- C6 counterexample: when the credential write raises inside the `with`
block — after the temporary file was created on disk but before
`tmp_file_name = tmp_file.name` ran — the caught exception leaves
`tmp_file_name` as `None`, the guarded `finally` clause skips the
removal, and the credential file remains after the function returns, in
both `get_sheet_data` and `write_sheet_data`. -/
theorem credential_file_leak_cex :
    fileExistsAfter "tmp"
      (get_sheet_data (some "CREDS") "tmp" FetchOutcome.writeFails).fileOps
      = true
    ∧ fileExistsAfter "tmp"
      (write_sheet_data (some "CREDS") "tmp" WriteOutcome.writeFails
        [("k", "v")]).fileOps = true := by
  decide

/-- C6 amended: on every exit path of `get_sheet_data` and
`write_sheet_data` other than an exception raised by the credential write
inside the `with` block, no credential file remains afterwards — in
particular after a normal return, after an authentication or fetch
failure, and when the temporary file could not be created at all. -/
theorem credential_file_cleanup (creds : Option String) (tmpName : String)
    (fo : FetchOutcome) (wo : WriteOutcome) (r : Record) :
    (fo ≠ FetchOutcome.writeFails →
      fileExistsAfter tmpName (get_sheet_data creds tmpName fo).fileOps
        = false)
    ∧ (wo ≠ WriteOutcome.writeFails →
      fileExistsAfter tmpName (write_sheet_data creds tmpName wo r).fileOps
        = false) := by
  constructor
  · intro h
    by_cases hc : (creds.getD "") = ""
    · simp [get_sheet_data, hc, fileExistsAfter]
    · cases fo with
      | writeFails => exact absurd rfl h
      | _ => simp [get_sheet_data, hc, fileExistsAfter]
  · intro h
    by_cases hc : (creds.getD "") = ""
    · simp [write_sheet_data, hc, fileExistsAfter]
    · cases wo with
      | writeFails => exact absurd rfl h
      | _ => simp [write_sheet_data, hc, fileExistsAfter]

/-- Witness for C6 after an induced authentication failure and a
successful append. -/
theorem credential_file_cleanup_witness :
    fileExistsAfter "tmp"
      (get_sheet_data (some "CREDS") "tmp" FetchOutcome.otherErr).fileOps
      = false
    ∧ fileExistsAfter "tmp"
      (write_sheet_data (some "CREDS") "tmp" WriteOutcome.ok
        [("k", "v")]).fileOps = false :=
  ⟨(credential_file_cleanup (some "CREDS") "tmp" FetchOutcome.otherErr
      WriteOutcome.ok [("k", "v")]).1 (by decide),
   (credential_file_cleanup (some "CREDS") "tmp" FetchOutcome.otherErr
      WriteOutcome.ok [("k", "v")]).2 (by decide)⟩

/-- C7 counterexample: for the example record, the body text of the built
payload is the greeting sentence, and the URL
`https://mahainformatics.com/files/kurla/A100.pdf` claimed for it occurs
nowhere in that text (the only URL in the payload is the `andheri`
document URL of the header component). -/
theorem sample_body_embeds_no_kurla_url_cex :
    (build_whatsapp_payload sampleRecord).map bodyTexts =
      some ["Namaste🙏 Asha check your Birth certificate"]
    ∧ strOccurs "https://mahainformatics.com/files/kurla/A100.pdf"
        "Namaste🙏 Asha check your Birth certificate" = false := by
  decide

/-- C7 amended: for the example record the phone normalizes to
`9876543210` and the recipient becomes `919876543210`; the document URL
`https://mahainformatics.com/files/andheri/A100.pdf` is embedded in the
header component, not the body; and the body text embeds the category
label `Birth`. -/
theorem sample_record_payload_contents :
    stripSpaces (rget sampleRecord "Mobile No") = "9876543210"
    ∧ (build_whatsapp_payload sampleRecord).map
        (fun p => p.payload.template.to_and_components.map
          (fun tc => tc.«to»)) = some [["919876543210"]]
    ∧ (build_whatsapp_payload sampleRecord).map
        (fun p => p.payload.template.to_and_components.map
          (fun tc => tc.components.header_1.value)) =
      some ["https://mahainformatics.com/files/andheri/A100.pdf"]
    ∧ (build_whatsapp_payload sampleRecord).map
        (fun p => (bodyTexts p).map (fun t => strOccurs "Birth" t)) =
      some [true] := by
  decide

/-- C9 counterexample: on the example record the two builders return
different payloads — the `body_1` greeting of `app.py` carries the
folded-hands emoji U+1F64F while that of `app_01.py` carries the
characters U+F8FF U+00FC U+00F4 U+00E8, so the literal text is not
byte-identical. -/
theorem builders_differ_cex :
    build_whatsapp_payload sampleRecord ≠
      build_whatsapp_payload_01 sampleRecord := by
  decide

/-- C9 amended: the two builders accept exactly the same records and
agree on every field of the built payload except the `body_1` text, whose
greeting prefix differs between the two files as stated in the
counterexample. -/
theorem builders_agree_outside_greeting (r : Record) :
    ((build_whatsapp_payload r).isSome = (build_whatsapp_payload_01 r).isSome)
    ∧ (Option.map eraseBody (build_whatsapp_payload r) =
        Option.map eraseBody (build_whatsapp_payload_01 r))
    ∧ (∀ p, build_whatsapp_payload r = some p →
        bodyTexts p = ["Namaste🙏 " ++ rget r "Applicant Name"
          ++ " check your " ++ rget r "Application Type (Certificate Name)"
          ++ " certificate"])
    ∧ (∀ p, build_whatsapp_payload_01 r = some p →
        bodyTexts p = ["Namaste\uF8FF\u00FC\u00F4\u00E8 " ++ rget r "Applicant Name"
          ++ " check your " ++ rget r "Application Type (Certificate Name)"
          ++ " certificate"]) := by
  by_cases h : stripSpaces (rget r "Mobile No") = "" ∨ rget r "Application ID" = ""
  · refine ⟨?_, ?_, ?_, ?_⟩ <;>
      simp [build_whatsapp_payload, build_whatsapp_payload_01, h]
  · refine ⟨?_, ?_, ?_, ?_⟩ <;>
      simp [build_whatsapp_payload, build_whatsapp_payload_01, h,
        eraseBody, bodyTexts]

/-- Witness for C9 at the example record. -/
theorem builders_agree_outside_greeting_witness :
    (Option.map eraseBody (build_whatsapp_payload sampleRecord) =
      Option.map eraseBody (build_whatsapp_payload_01 sampleRecord))
    ∧ (build_whatsapp_payload sampleRecord).map bodyTexts =
        some ["Namaste🙏 Asha check your Birth certificate"]
    ∧ (build_whatsapp_payload_01 sampleRecord).map bodyTexts =
        some ["Namaste\uF8FF\u00FC\u00F4\u00E8 Asha check your Birth certificate"] := by
  refine ⟨(builders_agree_outside_greeting sampleRecord).2.1, ?_, ?_⟩
  · cases hp : build_whatsapp_payload sampleRecord with
    | none => exact absurd hp (by decide)
    | some p =>
        simp only [Option.map_some']
        rw [(builders_agree_outside_greeting sampleRecord).2.2.1 p hp]
        decide
  · cases hp : build_whatsapp_payload_01 sampleRecord with
    | none => exact absurd hp (by decide)
    | some p =>
        simp only [Option.map_some']
        rw [(builders_agree_outside_greeting sampleRecord).2.2.2 p hp]
        decide

/-- C10: when the request body is a non-empty record that passes the
required-field mapping and `SHEET_ID` is configured, `submit_data`
answers 200 whatever the outcome of the spreadsheet append, and the
append outcome is reported only through the `sheet_write_status` field,
`success` when the append returned true and `failure` otherwise. -/
theorem submit_ok_despite_sheet_failure (sheet_id creds : Option String)
    (tmpName : String) (wo : WriteOutcome) (r : Record) (p : WhatsAppPayload)
    (hs : (sheet_id.getD "") ≠ "")
    (hp : build_whatsapp_payload_01 r = some p) :
    (submit_data sheet_id creds tmpName wo (some r)).httpStatus = 200
    ∧ (submit_data sheet_id creds tmpName wo (some r)).body =
      SubmitBody.payloadWith p
        (if (write_sheet_data creds tmpName wo r).ok then "success"
         else "failure") := by
  have hd : r.isEmpty = false := by
    cases r with
    | nil =>
        have : build_whatsapp_payload_01 ([] : Record) = none := by decide
        rw [this] at hp
        cases hp
    | cons a as => rfl
  constructor <;> simp [submit_data, hd, hs, hp]

/-- The payload that `build_whatsapp_payload` of `app_01.py` produces for
the example record. -/
def payload01Sample : WhatsAppPayload :=
  { integrated_number := "919270334724"
    content_type := "template"
    payload := {
      messaging_product := "whatsapp"
      type := "template"
      template := {
        name := "kurlaaa"
        language := { code := "en", policy := "deterministic" }
        nspace := "bef520bd_6b38_4231_8cd9_2f253f10a1dd"
        to_and_components := [{
          «to» := ["919876543210"]
          components := {
            header_1 := {
              filename := "A100"
              type := "document"
              value := "https://mahainformatics.com/files/andheri/A100.pdf"
            }
            body_1 := {
              type := "text"
              value := "Namaste\uF8FF\u00FC\u00F4\u00E8 Asha check your Birth certificate"
            } } }] } } }

/-- Witness for C10: with credentials unset the append fails, yet the
handler answers 200 and reports the failure only in
`sheet_write_status`. -/
theorem submit_ok_despite_sheet_failure_witness :
    (submit_data (some "S") none "tmp" WriteOutcome.ok
      (some sampleRecord)).httpStatus = 200
    ∧ (submit_data (some "S") none "tmp" WriteOutcome.ok
        (some sampleRecord)).body =
      SubmitBody.payloadWith payload01Sample
        (if (write_sheet_data none "tmp" WriteOutcome.ok sampleRecord).ok
         then "success" else "failure") :=
  submit_ok_despite_sheet_failure (some "S") none "tmp" WriteOutcome.ok
    sampleRecord payload01Sample (by decide) (by decide)
